import Mathlib

/-!
Shallow embedding of `src/client/scripts/render-ship-frames.py` (the single
source file of the repository): a Blender batch script that rotates an object
named "Ship" through `NUM_FRAMES` evenly spaced angles about the Z axis,
renders one PNG per angle, and restores the original rotation.

Angles are modelled with exact rationals (the script computes
`i * (360.0 / NUM_FRAMES)` in floating point; every claim under study is about
the exact value of this formula).  The Blender host state touched by the
script (render settings, the Ship object's Euler rotation, the render output
path, files written) is a record `HostState`; the fallible per-frame render
call `bpy.ops.render.render(write_still=True)` is modelled by an oracle
`ok : Nat → Bool` saying whether the call at frame `i` succeeds or raises.
The frame-count constant `NUM_FRAMES` is a parameter `n` of the loop
embedding, exactly as the spec's `frame_count`; `main` instantiates it with
the configured constant 64.
-/

namespace RenderShipFrames

/-- Configuration constant `SHIP_OBJECT_NAME = "Ship"` (line 22). -/
def SHIP_OBJECT_NAME : String := "Ship"

/-- Configuration constant `OUTPUT_DIR` (line 23). -/
def OUTPUT_DIR : String := "assets/sprites/ship_frames"

/-- Configuration constant `NUM_FRAMES = 64` (line 24). -/
def NUM_FRAMES : Nat := 64

/-- Configuration constant `RESOLUTION = 256` (line 25). -/
def RESOLUTION : Nat := 256

/-- `math.radians` multiplies a degree value by the fixed constant `π / 180`,
an injective linear map from degrees into radians.  A radian value produced
this way is represented here by its degree preimage `val`, which determines
it uniquely; two such values are equal iff their degree preimages are. -/
structure Rad where
  val : ℚ
deriving DecidableEq, Repr

/-- Embedding of `math.radians(d)` (line 85). -/
def radians (d : ℚ) : Rad := ⟨d⟩

/-- A Euler rotation triple: `ship.rotation_euler`, components indexed
`[0] = x`, `[1] = y`, `[2] = z`. -/
structure Euler where
  x : Rad
  y : Rad
  z : Rad
deriving DecidableEq, Repr

/-- The Blender host state read or written by the script:
`bpy.data.filepath`, the scene object names, the Ship object's
`rotation_euler`, the scene render settings mutated by `setup_scene`,
`scene.render.filepath`, whether the output directory was created, and the
list of image files written so far by render calls. -/
structure HostState where
  blend_filepath : String
  object_names : List String
  rotation_euler : Euler
  resolution_x : Nat
  resolution_y : Nat
  resolution_percentage : Nat
  film_transparent : Bool
  file_format : String
  color_mode : String
  compression : Nat
  render_filepath : String
  dir_created : Bool
  written_files : List String
deriving DecidableEq, Repr

/-- Python format `f"{i:03d}"`: the decimal digits of `i`, left-padded with
zeros to a minimum width of 3. -/
def pad3 (i : Nat) : String :=
  let s := toString i
  if s.length < 3 then (List.replicate (3 - s.length) '0').asString ++ s else s

/-- Line 94: `filename = f"ship_{i:03d}.png"`. -/
def frameFilename (i : Nat) : String := "ship_" ++ pad3 i ++ ".png"

/-- Line 84: `angle_degrees = i * (360.0 / NUM_FRAMES)`, with the frame-count
constant generalized to a parameter `n`.  Exact rational arithmetic. -/
def angleDeg (n i : Nat) : ℚ := (i : ℚ) * (360 / (n : ℚ))

/-- Accumulator threaded through the render loop of
`render_rotation_frames`: the current host state plus traces of everything
the loop did, recorded for versification: the degree angles computed (one per
evaluation of the `360.0 / NUM_FRAMES` step expression, so `divEvals`
likewise counts those evaluations), the radian values written to
`rotation_euler[2]`, each full value taken by `rotation_euler`, and the
filenames rendered. -/
structure LoopAcc where
  st : HostState
  angles : List ℚ
  writes : List Rad
  eulers : List Euler
  files : List String
  divEvals : Nat
deriving DecidableEq, Repr

/-- The loop body of `render_rotation_frames` (lines 82..107), iterating over
the remaining frame indices.  Per frame `i`: compute
`angle_degrees = i * (360.0 / n)` and `angle_radians = math.radians(...)`;
set `ship.rotation_euler[2]`; set `scene.render.filepath`; call the render
(`ok i`).  On success the image file is written and the loop continues; on
failure the exception propagates, ending the loop with `some i` and the state
as it stood at the raise. -/
def runFrames (ok : Nat → Bool) (n : Nat) (output_path : String) :
    List Nat → LoopAcc → LoopAcc × Option Nat
  | [], acc => (acc, none)
  | i :: rest, acc =>
    let angle_degrees := angleDeg n i
    let angle_radians := radians angle_degrees
    let rot : Euler :=
      { x := acc.st.rotation_euler.x, y := acc.st.rotation_euler.y, z := angle_radians }
    let filename := frameFilename i
    let filepath := output_path ++ "/" ++ filename
    let st1 : HostState := { acc.st with rotation_euler := rot, render_filepath := filepath }
    let acc1 : LoopAcc :=
      { st := st1
        angles := acc.angles ++ [angle_degrees]
        writes := acc.writes ++ [angle_radians]
        eulers := acc.eulers ++ [rot]
        files := acc.files
        divEvals := acc.divEvals + 1 }
    if ok i then
      runFrames ok n output_path rest
        { acc1 with
          st := { st1 with written_files := st1.written_files ++ [filepath] }
          files := acc1.files ++ [filename] }
    else
      (acc1, some i)

/-- Outcome of one invocation of `render_rotation_frames`: the host state at
exit, the frame index whose render call raised (if any), the Python return
value on normal exit (the function body has no `return` statement, so it is
`None`, modelled as `none : Option Nat`), and the loop traces. -/
structure RunResult where
  final : HostState
  err : Option Nat
  retval : Option Nat
  angles : List ℚ
  writes : List Rad
  eulers : List Euler
  files : List String
  divEvals : Nat
deriving DecidableEq, Repr

/-- `render_rotation_frames(ship, output_path)` (lines 71..113), frame count
generalized to `n`: save `original_rotation = ship.rotation_euler.copy()`,
run the loop over `range(n)`, and — only when the loop completes without an
exception — restore `ship.rotation_euler = original_rotation` (this final
assignment is recorded in the `eulers` trace).  When a render call raises,
the exception propagates and the restore line is never reached. -/
def render_rotation_frames (ok : Nat → Bool) (n : Nat) (output_path : String)
    (s : HostState) : RunResult :=
  let original_rotation := s.rotation_euler
  let r := runFrames ok n output_path (List.range n) ⟨s, [], [], [], [], 0⟩
  match r.2 with
  | some i =>
    { final := r.1.st, err := some i, retval := none, angles := r.1.angles,
      writes := r.1.writes, eulers := r.1.eulers, files := r.1.files,
      divEvals := r.1.divEvals }
  | none =>
    { final := { r.1.st with rotation_euler := original_rotation }, err := none,
      retval := none, angles := r.1.angles, writes := r.1.writes,
      eulers := r.1.eulers ++ [original_rotation], files := r.1.files,
      divEvals := r.1.divEvals }

/-- `setup_scene()` (lines 27..44): mutate the scene render settings. -/
def setup_scene (s : HostState) : HostState :=
  { s with
    resolution_x := RESOLUTION
    resolution_y := RESOLUTION
    resolution_percentage := 100
    film_transparent := true
    file_format := "PNG"
    color_mode := "RGBA"
    compression := 15 }

/-- `find_ship_object()` (lines 46..54) succeeds iff
`bpy.data.objects.get(SHIP_OBJECT_NAME)` finds an object; on failure the
script calls `sys.exit(1)` (modelled at the `main` level). -/
def find_ship_object (s : HostState) : Bool :=
  s.object_names.contains SHIP_OBJECT_NAME

/-- Outcome of `main()`: `exitCode = some c` when `sys.exit(c)` was called,
the host state at process exit, and the render-loop outcome when the loop was
entered (`none` when it never ran).  An uncaught render exception is visible
as `run = some r` with `r.err ≠ none`. -/
structure MainResult where
  exitCode : Option Nat
  final : HostState
  run : Option RunResult
deriving DecidableEq, Repr

/-- `main()` (lines 115..135): abort with `sys.exit(1)` if no blend file is
loaded; `setup_scene()`; abort with `sys.exit(1)` if the Ship object is
absent; `create_output_directory()` (modelled as setting `dir_created`); then
`render_rotation_frames` with the configured `NUM_FRAMES` and output
directory. -/
def main (ok : Nat → Bool) (s : HostState) : MainResult :=
  if s.blend_filepath = "" then
    { exitCode := some 1, final := s, run := none }
  else
    let s1 := setup_scene s
    if find_ship_object s1 then
      let s2 : HostState := { s1 with dir_created := true }
      let r := render_rotation_frames ok NUM_FRAMES OUTPUT_DIR s2
      { exitCode := none, final := r.final, run := some r }
    else
      { exitCode := some 1, final := s1, run := none }

/-- The pure angle sequence generated by a run over `n` frames:
`[i * (360 / n) for i in range(n)]`. -/
def frameAngles (n : Nat) : List ℚ := (List.range n).map (angleDeg n)

/-- The degree angles actually computed along a frame-index list, given the
render-success oracle: computation stops right after the first failing
frame.  This is a pure function of `ok`, `n` and the index list alone. -/
def anglesAlong (ok : Nat → Bool) (n : Nat) : List Nat → List ℚ
  | [] => []
  | i :: rest => angleDeg n i :: (if ok i then anglesAlong ok n rest else [])

/-- A concrete sample host state used by witnesses and counterexamples. -/
def sampleState : HostState :=
  { blend_filepath := "ship1.blend"
    object_names := ["Camera", "Light", "Ship"]
    rotation_euler := { x := ⟨1⟩, y := ⟨2⟩, z := ⟨7⟩ }
    resolution_x := 128
    resolution_y := 128
    resolution_percentage := 50
    film_transparent := false
    file_format := "JPEG"
    color_mode := "RGB"
    compression := 0
    render_filepath := ""
    dir_created := false
    written_files := [] }

/-! ### Loop characterization lemmas -/

/-- When every render call along the index list succeeds, the loop finishes
without an exception. -/
theorem runFrames_snd_eq_none (ok : Nat → Bool) (n : Nat) (p : String)
    (l : List Nat) : ∀ acc, (∀ i ∈ l, ok i = true) →
    (runFrames ok n p l acc).2 = none := by
  induction l with
  | nil => intro acc _; rfl
  | cons i rest ih =>
    intro acc h
    have hi : ok i = true := h i (List.mem_cons_self i rest)
    simp only [runFrames, hi, if_true]
    exact ih _ (fun j hj => h j (List.mem_cons_of_mem i hj))

/-- The degree-angle trace of the loop is the pure function `anglesAlong` of
the oracle, the frame count and the index list alone: it does not depend on
the host state. -/
theorem runFrames_angles (ok : Nat → Bool) (n : Nat) (p : String)
    (l : List Nat) : ∀ acc,
    (runFrames ok n p l acc).1.angles = acc.angles ++ anglesAlong ok n l := by
  induction l with
  | nil => intro acc; simp [runFrames, anglesAlong]
  | cons i rest ih =>
    intro acc
    by_cases hi : ok i = true
    · simp only [runFrames, hi, if_true, anglesAlong, ih]
      simp only [List.append_assoc, List.singleton_append]
    · simp only [runFrames, hi, Bool.false_eq_true, if_false, anglesAlong]

/-- With an all-succeeding oracle, the computed angle trace along a list is
just the direct formula mapped over the list. -/
theorem anglesAlong_of_ok (ok : Nat → Bool) (n : Nat) (l : List Nat)
    (h : ∀ i ∈ l, ok i = true) : anglesAlong ok n l = l.map (angleDeg n) := by
  induction l with
  | nil => rfl
  | cons i rest ih =>
    have hi : ok i = true := h i (List.mem_cons_self i rest)
    simp only [anglesAlong, hi, if_true, List.map_cons, List.cons.injEq]
    exact ⟨by trivial, ih (fun j hj => h j (List.mem_cons_of_mem i hj))⟩

/-- When every render call succeeds, the rendered-filename trace is
`frameFilename` mapped over the index list, regardless of the host state. -/
theorem runFrames_files_of_ok (ok : Nat → Bool) (n : Nat) (p : String)
    (l : List Nat) : ∀ acc, (∀ i ∈ l, ok i = true) →
    (runFrames ok n p l acc).1.files = acc.files ++ l.map frameFilename := by
  induction l with
  | nil => intro acc _; simp [runFrames]
  | cons i rest ih =>
    intro acc h
    have hi : ok i = true := h i (List.mem_cons_self i rest)
    simp only [runFrames, hi, if_true]
    rw [ih _ (fun j hj => h j (List.mem_cons_of_mem i hj))]
    simp

/-- When every render call succeeds, the values written to
`rotation_euler[2]` are exactly `radians (angleDeg n i)` for `i` along the
index list, each computed directly from its index. -/
theorem runFrames_writes_of_ok (ok : Nat → Bool) (n : Nat) (p : String)
    (l : List Nat) : ∀ acc, (∀ i ∈ l, ok i = true) →
    (runFrames ok n p l acc).1.writes
      = acc.writes ++ l.map (fun i => radians (angleDeg n i)) := by
  induction l with
  | nil => intro acc _; simp [runFrames]
  | cons i rest ih =>
    intro acc h
    have hi : ok i = true := h i (List.mem_cons_self i rest)
    simp only [runFrames, hi, if_true]
    rw [ih _ (fun j hj => h j (List.mem_cons_of_mem i hj))]
    simp

/-- The loop never touches the `x` and `y` Euler components of the host
state, whether or not render calls fail. -/
theorem runFrames_st_xy (ok : Nat → Bool) (n : Nat) (p : String)
    (l : List Nat) : ∀ acc,
    (runFrames ok n p l acc).1.st.rotation_euler.x = acc.st.rotation_euler.x ∧
    (runFrames ok n p l acc).1.st.rotation_euler.y = acc.st.rotation_euler.y := by
  induction l with
  | nil => intro acc; exact ⟨rfl, rfl⟩
  | cons i rest ih =>
    intro acc
    by_cases hi : ok i = true
    · simp only [runFrames, hi, if_true]
      exact ih _
    · simp only [runFrames, hi, Bool.false_eq_true, if_false]
      constructor <;> trivial

/-- Every Euler value the loop assigns to the target keeps the `x` and `y`
components of the state it started from (again regardless of failures). -/
theorem runFrames_eulers_xy (ok : Nat → Bool) (n : Nat) (p : String)
    (l : List Nat) : ∀ acc, ∀ e ∈ (runFrames ok n p l acc).1.eulers,
    e ∈ acc.eulers ∨
      (e.x = acc.st.rotation_euler.x ∧ e.y = acc.st.rotation_euler.y) := by
  induction l with
  | nil => intro acc e he; exact Or.inl he
  | cons i rest ih =>
    intro acc e he
    by_cases hi : ok i = true
    · simp only [runFrames, hi, if_true] at he
      rcases ih _ e he with h | h
      · rcases List.mem_append.1 h with h | h
        · exact Or.inl h
        · right
          rcases List.mem_singleton.1 h with rfl
          exact ⟨rfl, rfl⟩
      · exact Or.inr h
    · simp only [runFrames, hi, Bool.false_eq_true, if_false] at he
      rcases List.mem_append.1 he with h | h
      · exact Or.inl h
      · right
        rcases List.mem_singleton.1 h with rfl
        exact ⟨rfl, rfl⟩

/-- Splitting the loop along an append of index lists: the second
part runs only when the first finished without an exception. -/
theorem runFrames_append (ok : Nat → Bool) (n : Nat) (p : String)
    (l₁ l₂ : List Nat) : ∀ acc,
    runFrames ok n p (l₁ ++ l₂) acc =
      match runFrames ok n p l₁ acc with
      | (a, none) => runFrames ok n p l₂ a
      | (a, some i) => (a, some i) := by
  induction l₁ with
  | nil => intro acc; rfl
  | cons i rest ih =>
    intro acc
    by_cases hi : ok i = true
    · simp only [List.cons_append, runFrames, hi, if_true]
      exact ih _
    · simp only [List.cons_append, runFrames, hi, Bool.false_eq_true, if_false]

/-! ### Arithmetic facts about the angle formula -/

/-- The angular step `360 / n` is positive for a positive frame count. -/
theorem step_pos (n : Nat) (hn : 0 < n) : (0 : ℚ) < 360 / (n : ℚ) :=
  div_pos (by norm_num) (by exact_mod_cast hn)

/-- The direct angle formula is strictly monotone in the frame index. -/
theorem angleDeg_strictMono (n : Nat) (hn : 0 < n) {i j : Nat} (hij : i < j) :
    angleDeg n i < angleDeg n j :=
  mul_lt_mul_of_pos_right (by exact_mod_cast hij) (step_pos n hn)

/-- Every angle of a frame index below the frame count is below 360°. -/
theorem angleDeg_lt_360 (n i : Nat) (hn : 0 < n) (h : i < n) :
    angleDeg n i < 360 := by
  have hi : (i : ℚ) < (n : ℚ) := by exact_mod_cast h
  have h0 : (n : ℚ) ≠ 0 := Nat.cast_ne_zero.2 hn.ne'
  calc angleDeg n i < (n : ℚ) * (360 / (n : ℚ)) :=
        mul_lt_mul_of_pos_right hi (step_pos n hn)
    _ = 360 := by field_simp

/-- The generated angle sequence has one entry per frame. -/
theorem frameAngles_length (n : Nat) : (frameAngles n).length = n := by
  simp [frameAngles]

/-- Entry `i` of the generated angle sequence is `i * (360 / n)`. -/
theorem frameAngles_getD (n i : Nat) (h : i < n) :
    (frameAngles n).getD i 0 = angleDeg n i := by
  rw [List.getD_eq_getElem _ _ (by simpa [frameAngles] using h)]
  simp [frameAngles]

/-- The generated angle sequence is strictly increasing. -/
theorem frameAngles_pairwise (n : Nat) (hn : 0 < n) :
    (frameAngles n).Pairwise (· < ·) :=
  (List.pairwise_lt_range n).map (angleDeg n)
    (fun _ _ h => angleDeg_strictMono n hn h)

/-- Every entry of the generated angle sequence is strictly below 360°. -/
theorem frameAngles_mem_lt (n : Nat) (hn : 0 < n) :
    ∀ a ∈ frameAngles n, a < 360 := by
  intro a ha
  simp only [frameAngles, List.mem_map] at ha
  obtain ⟨i, hi, rfl⟩ := ha
  exact angleDeg_lt_360 n i hn (List.mem_range.1 hi)

/-! ### The run on the success path -/

/-- Characterization of `render_rotation_frames` when every render call
succeeds: no exception, Python return value `None`, the original rotation
restored exactly, and the angle, write and filename traces all given by the
direct per-index formulas. -/
theorem run_ok_spec (ok : Nat → Bool) (n : Nat) (p : String) (s : HostState)
    (hok : ∀ i, ok i = true) :
    (render_rotation_frames ok n p s).err = none ∧
    (render_rotation_frames ok n p s).retval = none ∧
    (render_rotation_frames ok n p s).final.rotation_euler = s.rotation_euler ∧
    (render_rotation_frames ok n p s).angles = frameAngles n ∧
    (render_rotation_frames ok n p s).writes
      = (List.range n).map (fun i => radians (angleDeg n i)) ∧
    (render_rotation_frames ok n p s).files = (List.range n).map frameFilename := by
  have hnone := runFrames_snd_eq_none ok n p (List.range n)
    ⟨s, [], [], [], [], 0⟩ (fun i _ => hok i)
  have hang := runFrames_angles ok n p (List.range n) ⟨s, [], [], [], [], 0⟩
  have hang2 := anglesAlong_of_ok ok n (List.range n) (fun i _ => hok i)
  have hwr := runFrames_writes_of_ok ok n p (List.range n)
    ⟨s, [], [], [], [], 0⟩ (fun i _ => hok i)
  have hfi := runFrames_files_of_ok ok n p (List.range n)
    ⟨s, [], [], [], [], 0⟩ (fun i _ => hok i)
  simp only [render_rotation_frames, hnone]
  refine ⟨by trivial, by trivial, by trivial, ?_, ?_, ?_⟩
  · rw [hang, hang2]; simp [frameAngles]
  · rw [hwr]; simp
  · rw [hfi]; simp

/-- The angle trace of a whole invocation is a pure function of the oracle
and the frame count: the host state plays no part in it. -/
theorem run_angles_pure (ok : Nat → Bool) (n : Nat) (p : String)
    (s : HostState) :
    (render_rotation_frames ok n p s).angles = anglesAlong ok n (List.range n) := by
  have hang := runFrames_angles ok n p (List.range n) ⟨s, [], [], [], [], 0⟩
  simp only [render_rotation_frames]
  split <;> simpa using hang

/-! ### The claims -/

/-- Claim C1: for every frame count `N > 0` (with every render call
succeeding), the generated rotation sequence has exactly `N` entries, entry
`i` is `i * (360 / N)` degrees, the first entry is `0`, the entries are
strictly increasing, and every entry — the last one included — is strictly
below `360`. -/
theorem c1_rotation_sequence (ok : Nat → Bool) (n : Nat) (p : String)
    (s : HostState) (hn : 0 < n) (hok : ∀ i, ok i = true) :
    (render_rotation_frames ok n p s).angles.length = n ∧
    (∀ i, i < n →
      (render_rotation_frames ok n p s).angles.getD i 0
        = (i : ℚ) * (360 / (n : ℚ))) ∧
    (render_rotation_frames ok n p s).angles.getD 0 0 = 0 ∧
    (render_rotation_frames ok n p s).angles.Pairwise (· < ·) ∧
    (∀ a ∈ (render_rotation_frames ok n p s).angles, a < 360) := by
  obtain ⟨-, -, -, hang, -, -⟩ := run_ok_spec ok n p s hok
  rw [hang]
  refine ⟨frameAngles_length n, ?_, ?_,
    frameAngles_pairwise n hn, frameAngles_mem_lt n hn⟩
  · intro i hi
    exact frameAngles_getD n i hi
  · have h0 := frameAngles_getD n 0 hn
    simpa [angleDeg] using h0

/-- Witness for C1 at the concrete frame count 4. -/
theorem c1_rotation_sequence_witness :
    (render_rotation_frames (fun _ => true) 4 "out" sampleState).angles.length = 4 ∧
    (render_rotation_frames (fun _ => true) 4 "out" sampleState).angles.getD 0 0 = 0 :=
  ⟨(c1_rotation_sequence (fun _ => true) 4 "out" sampleState (by decide)
      (fun _ => rfl)).1,
   (c1_rotation_sequence (fun _ => true) 4 "out" sampleState (by decide)
      (fun _ => rfl)).2.2.1⟩

/-- Claim C2: after a run in which every per-frame render call succeeds,
the target's orientation equals its pre-run value exactly. -/
theorem c2_restoration (ok : Nat → Bool) (n : Nat) (p : String)
    (s : HostState) (hok : ∀ i, ok i = true) :
    (render_rotation_frames ok n p s).final.rotation_euler = s.rotation_euler :=
  (run_ok_spec ok n p s hok).2.2.1

/-- Witness for C2 at the configured frame count and output directory. -/
theorem c2_restoration_witness :
    (render_rotation_frames (fun _ => true) NUM_FRAMES OUTPUT_DIR
        sampleState).final.rotation_euler = sampleState.rotation_euler :=
  c2_restoration (fun _ => true) NUM_FRAMES OUTPUT_DIR sampleState (fun _ => rfl)

/-- Claim C7: with frame count 0 the run renders nothing, leaves the host
state exactly unchanged, raises no error, writes no orientation value, and
the step-angle expression `360 / frame_count` is never evaluated (the loop
body containing it never runs, so `divEvals = 0`). -/
theorem c7_zero_frames (ok : Nat → Bool) (p : String) (s : HostState) :
    (render_rotation_frames ok 0 p s).final = s ∧
    (render_rotation_frames ok 0 p s).err = none ∧
    (render_rotation_frames ok 0 p s).writes = [] ∧
    (render_rotation_frames ok 0 p s).files = [] ∧
    (render_rotation_frames ok 0 p s).divEvals = 0 :=
  ⟨rfl, rfl, rfl, rfl, rfl⟩

/-- Claim C8: the orientation value written for frame `i` is
`radians (i * (360 / n))`, computed directly from the index by the single
absolute formula: the whole trace of writes is that formula mapped over
`range n`, with no running accumulated value anywhere in the state. -/
theorem c8_direct_angles (ok : Nat → Bool) (n : Nat) (p : String)
    (s : HostState) (hok : ∀ i, ok i = true) :
    (render_rotation_frames ok n p s).writes
      = (List.range n).map (fun i : Nat => radians ((i : ℚ) * (360 / (n : ℚ)))) :=
  (run_ok_spec ok n p s hok).2.2.2.2.1

/-- Witness for C8 at the concrete frame count 4. -/
theorem c8_direct_angles_witness :
    (render_rotation_frames (fun _ => true) 4 "out" sampleState).writes
      = (List.range 4).map (fun i : Nat => radians ((i : ℚ) * (360 / (4 : ℚ)))) :=
  c8_direct_angles (fun _ => true) 4 "out" sampleState (fun _ => rfl)

/-- Claim C9: the sequencer holds no state across invocations — the angle
sequence of a run is a pure function of the renderer oracle and the frame
count, so a second run started from the final state of a first produces the
identical angle sequence, element for element. -/
theorem c9_no_hidden_state (ok : Nat → Bool) (n : Nat) (p : String)
    (s : HostState) :
    (render_rotation_frames ok n p
        (render_rotation_frames ok n p s).final).angles
      = (render_rotation_frames ok n p s).angles := by
  rw [run_angles_pure, run_angles_pure]

/-- Claim C10: only the Z component of the target's Euler rotation is ever
mutated: every value `rotation_euler` takes during the run (the final
restoration included) and the post-run value keep the pre-run X and Y
components exactly, whether or not a render call fails. -/
theorem c10_only_z_mutated (ok : Nat → Bool) (n : Nat) (p : String)
    (s : HostState) :
    (∀ e ∈ (render_rotation_frames ok n p s).eulers,
        e.x = s.rotation_euler.x ∧ e.y = s.rotation_euler.y) ∧
    (render_rotation_frames ok n p s).final.rotation_euler.x
        = s.rotation_euler.x ∧
    (render_rotation_frames ok n p s).final.rotation_euler.y
        = s.rotation_euler.y := by
  have hxy := runFrames_st_xy ok n p (List.range n) ⟨s, [], [], [], [], 0⟩
  have heu := runFrames_eulers_xy ok n p (List.range n) ⟨s, [], [], [], [], 0⟩
  simp only [render_rotation_frames]
  split
  · refine ⟨?_, hxy.1, hxy.2⟩
    intro e he
    rcases heu e he with h | h
    · exact absurd h (List.not_mem_nil e)
    · exact h
  · refine ⟨?_, rfl, rfl⟩
    intro e he
    rcases List.mem_append.1 he with h | h
    · rcases heu e h with h' | h'
      · exact absurd h' (List.not_mem_nil e)
      · exact h'
    · rcases List.mem_singleton.1 h with rfl
      exact ⟨rfl, rfl⟩

/-- Witness for C10: the Euler value assigned at frame 1 of a concrete
4-frame run keeps the pre-run X and Y components. -/
theorem c10_only_z_mutated_witness :
    ({ x := ⟨1⟩, y := ⟨2⟩, z := radians (angleDeg 4 1) } : Euler).x
        = sampleState.rotation_euler.x ∧
    ({ x := ⟨1⟩, y := ⟨2⟩, z := radians (angleDeg 4 1) } : Euler).y
        = sampleState.rotation_euler.y :=
  (c10_only_z_mutated (fun _ => true) 4 "out" sampleState).1
    { x := ⟨1⟩, y := ⟨2⟩, z := radians (angleDeg 4 1) }
    (by with_unfolding_all decide)

/-- Claim C3 counterexample: with a renderer that succeeds at frame 0 and
fails at frame 1 of a 4-frame run, the error propagates (`err = some 1`)
but the target's original orientation is NOT restored before propagation:
the rotation at exit differs from its pre-run value. -/
theorem c3_counterexample :
    (render_rotation_frames (fun i => decide (i = 0)) 4 "out" sampleState).err
        = some 1 ∧
    (render_rotation_frames (fun i => decide (i = 0)) 4 "out"
        sampleState).final.rotation_euler ≠ sampleState.rotation_euler := by
  constructor
  · with_unfolding_all decide
  · with_unfolding_all decide

/-- Claim C3 amended: if the render call first fails at frame `j`, the run
stops there — no retry, no skip-and-continue: exactly frames `0..j-1` were
rendered — and the error propagates to the caller (`err = some j`); but the
original orientation is NOT restored: the Z rotation is left at frame `j`'s
angle (only X and Y keep their pre-run values, because the loop never
touches them). -/
theorem c3_fail_propagates (ok : Nat → Bool) (n j : Nat) (p : String)
    (s : HostState) (hj : j < n) (hok : ∀ i, i < j → ok i = true)
    (hf : ok j = false) :
    (render_rotation_frames ok n p s).err = some j ∧
    (render_rotation_frames ok n p s).files
        = (List.range j).map frameFilename ∧
    (render_rotation_frames ok n p s).final.rotation_euler.z
        = radians ((j : ℚ) * (360 / (n : ℚ))) ∧
    (render_rotation_frames ok n p s).final.rotation_euler.x
        = s.rotation_euler.x ∧
    (render_rotation_frames ok n p s).final.rotation_euler.y
        = s.rotation_euler.y := by
  have hsplit : List.range n
      = List.range j ++ (j :: (List.range (n - (j + 1))).map (j + 1 + ·)) := by
    conv_lhs => rw [show n = (j + 1) + (n - (j + 1)) by omega]
    rw [List.range_add, List.range_succ]
    simp
  have h1 := runFrames_snd_eq_none ok n p (List.range j)
    ⟨s, [], [], [], [], 0⟩ (fun i hi => hok i (List.mem_range.1 hi))
  have h1' : runFrames ok n p (List.range j) ⟨s, [], [], [], [], 0⟩
      = ((runFrames ok n p (List.range j) ⟨s, [], [], [], [], 0⟩).1, none) := by
    rw [← h1]
  have hxy := runFrames_st_xy ok n p (List.range j) ⟨s, [], [], [], [], 0⟩
  have hfi := runFrames_files_of_ok ok n p (List.range j)
    ⟨s, [], [], [], [], 0⟩ (fun i hi => hok i (List.mem_range.1 hi))
  have key : runFrames ok n p (List.range n) ⟨s, [], [], [], [], 0⟩
      = ({ st :=
            { (runFrames ok n p (List.range j) ⟨s, [], [], [], [], 0⟩).1.st with
              rotation_euler :=
                { x := (runFrames ok n p (List.range j)
                    ⟨s, [], [], [], [], 0⟩).1.st.rotation_euler.x,
                  y := (runFrames ok n p (List.range j)
                    ⟨s, [], [], [], [], 0⟩).1.st.rotation_euler.y,
                  z := radians (angleDeg n j) },
              render_filepath := p ++ "/" ++ frameFilename j },
           angles := (runFrames ok n p (List.range j)
              ⟨s, [], [], [], [], 0⟩).1.angles ++ [angleDeg n j],
           writes := (runFrames ok n p (List.range j)
              ⟨s, [], [], [], [], 0⟩).1.writes ++ [radians (angleDeg n j)],
           eulers := (runFrames ok n p (List.range j)
              ⟨s, [], [], [], [], 0⟩).1.eulers ++
                [{ x := (runFrames ok n p (List.range j)
                      ⟨s, [], [], [], [], 0⟩).1.st.rotation_euler.x,
                   y := (runFrames ok n p (List.range j)
                      ⟨s, [], [], [], [], 0⟩).1.st.rotation_euler.y,
                   z := radians (angleDeg n j) }],
           files := (runFrames ok n p (List.range j)
              ⟨s, [], [], [], [], 0⟩).1.files,
           divEvals := (runFrames ok n p (List.range j)
              ⟨s, [], [], [], [], 0⟩).1.divEvals + 1 }, some j) := by
    rw [hsplit, runFrames_append, h1']
    simp only [runFrames, hf, Bool.false_eq_true, if_false]
  simp only [render_rotation_frames, key]
  refine ⟨by trivial, ?_, by trivial, hxy.1, hxy.2⟩
  rw [hfi]
  simp

/-- Witness for the amended C3 at a concrete failing run. -/
theorem c3_fail_propagates_witness :
    (render_rotation_frames (fun i => decide (i = 0)) 4 "out"
        sampleState).final.rotation_euler.z
      = radians ((1 : ℚ) * (360 / (4 : ℚ))) :=
  (c3_fail_propagates (fun i => decide (i = 0)) 4 1 "out" sampleState
    (by decide) (by decide) (by decide)).2.2.1

/-- Claim C4 counterexample: a run over 2 frames in which every render call
succeeds finishes without error after rendering 2 frames, yet the
operation's return value is Python `None`, not the count 2. -/
theorem c4_counterexample :
    (render_rotation_frames (fun _ => true) 2 "out" sampleState).err = none ∧
    (render_rotation_frames (fun _ => true) 2 "out" sampleState).files.length
        = 2 ∧
    (render_rotation_frames (fun _ => true) 2 "out" sampleState).retval
        ≠ some 2 := by
  refine ⟨?_, ?_, ?_⟩ <;> with_unfolding_all decide

/-- Claim C4 amended: on successful completion the operation returns no
value (Python `None`); the number of frames rendered equals the frame
count, and is reported only through the console message. -/
theorem c4_returns_none (ok : Nat → Bool) (n : Nat) (p : String)
    (s : HostState) (hok : ∀ i, ok i = true) :
    (render_rotation_frames ok n p s).retval = none ∧
    (render_rotation_frames ok n p s).err = none ∧
    (render_rotation_frames ok n p s).files.length = n := by
  obtain ⟨he, hr, -, -, -, hf⟩ := run_ok_spec ok n p s hok
  refine ⟨hr, he, ?_⟩
  rw [hf]
  simp

/-- Witness for the amended C4 at the concrete frame count 3. -/
theorem c4_returns_none_witness :
    (render_rotation_frames (fun _ => true) 3 "out" sampleState).retval = none ∧
    (render_rotation_frames (fun _ => true) 3 "out" sampleState).files.length
        = 3 :=
  ⟨(c4_returns_none (fun _ => true) 3 "out" sampleState (fun _ => rfl)).1,
   (c4_returns_none (fun _ => true) 3 "out" sampleState (fun _ => rfl)).2.2⟩

/-- Claim C5 counterexample: with a blend file loaded but no object named
"Ship", the process aborts with exit code 1 — but only after `setup_scene`
has already mutated the host's render settings: at entry the horizontal
resolution was 128, at the abort it is 256.  Detection therefore does not
precede every mutation of host state. -/
theorem c5_counterexample :
    (main (fun _ => true)
        { sampleState with object_names := ["Cube"] }).exitCode = some 1 ∧
    (main (fun _ => true)
        { sampleState with object_names := ["Cube"] }).final.resolution_x
        = 256 ∧
    ({ sampleState with object_names := ["Cube"] } : HostState).resolution_x
        = 128 := by
  refine ⟨?_, ?_, ?_⟩ <;> with_unfolding_all decide

/-- Claim C5 amended: if no blend file is loaded or the target object is
absent, the process aborts with the distinguished exit code 1, zero image
files are written, the output directory is untouched, the target's
orientation is never mutated, and the render loop is never entered.  The
missing-document check precedes all mutation; the missing-object check,
however, runs only after `setup_scene` has already configured the scene
render settings, so it is not upfront of every host-state mutation. -/
theorem c5_precondition_abort (ok : Nat → Bool) (s : HostState)
    (h : s.blend_filepath = ""
        ∨ s.object_names.contains SHIP_OBJECT_NAME = false) :
    (main ok s).exitCode = some 1 ∧
    (main ok s).run = none ∧
    (main ok s).final.written_files = s.written_files ∧
    (main ok s).final.rotation_euler = s.rotation_euler ∧
    (main ok s).final.dir_created = s.dir_created := by
  by_cases hfp : s.blend_filepath = ""
  · simp [main, hfp]
  · have hco : s.object_names.contains SHIP_OBJECT_NAME = false :=
      h.resolve_left hfp
    have hmem : SHIP_OBJECT_NAME ∉ s.object_names := by simpa using hco
    simp [main, hfp, find_ship_object, setup_scene, hmem]

/-- Witness for the amended C5 on a state with no blend file loaded. -/
theorem c5_precondition_abort_witness :
    (main (fun _ => true)
        { sampleState with blend_filepath := "" }).exitCode = some 1 ∧
    (main (fun _ => true)
        { sampleState with blend_filepath := "" }).run = none :=
  ⟨(c5_precondition_abort (fun _ => true)
      { sampleState with blend_filepath := "" } (Or.inl rfl)).1,
   (c5_precondition_abort (fun _ => true)
      { sampleState with blend_filepath := "" } (Or.inl rfl)).2.1⟩

set_option maxRecDepth 40000 in
/-- Claim C6: frame filenames are a pure deterministic function of the
frame index alone — the fixed "ship_" leader, the index zero-padded to 3
digits, the fixed ".png" tail — and a successful run over `n` frames
renders exactly `frameFilename i` for `i` in `range n`, whatever host state
and succeeding oracle the run uses: two runs with the same count address
exactly the same filenames. -/
theorem c6_filenames (ok₁ ok₂ : Nat → Bool) (n : Nat) (p : String)
    (s₁ s₂ : HostState) (h1 : ∀ i, ok₁ i = true) (h2 : ∀ i, ok₂ i = true) :
    (render_rotation_frames ok₁ n p s₁).files
        = (List.range n).map frameFilename ∧
    (render_rotation_frames ok₂ n p s₂).files
        = (render_rotation_frames ok₁ n p s₁).files ∧
    (∀ i, i < 1000 →
      frameFilename i = "ship_" ++ pad3 i ++ ".png" ∧
      (pad3 i).length = 3) := by
  obtain ⟨-, -, -, -, -, hf1⟩ := run_ok_spec ok₁ n p s₁ h1
  obtain ⟨-, -, -, -, -, hf2⟩ := run_ok_spec ok₂ n p s₂ h2
  have hpad : ∀ i, i < 1000 → (pad3 i).length = 3 := by decide
  refine ⟨hf1, by rw [hf1, hf2], ?_⟩
  intro i hi
  exact ⟨rfl, hpad i hi⟩

/-- Witness for C6 at the concrete frame count 2. -/
theorem c6_filenames_witness :
    (render_rotation_frames (fun _ => true) 2 "out" sampleState).files
      = (List.range 2).map frameFilename :=
  (c6_filenames (fun _ => true) (fun _ => true) 2 "out" sampleState
    sampleState (fun _ => rfl) (fun _ => rfl)).1

end RenderShipFrames
